import Mathlib

/-!
Verification of `django_sharding_library/sharding_functions.py`.

The Python module is embedded shallowly:

* Python dictionaries of database configurations become association lists
  `List (String × DbConfig)`; `config.get(key)` returning `None` for a
  missing key is modelled with `Option` / a `PyVal.none` value.
* Python exceptions become `Except PyErr`; the Python 2 semantics of the
  source are used (`itertools.cycle(...).next()` exists and raises
  `StopIteration` on an empty cycle, `super(C, self)` raises `TypeError`
  when `self` is not an instance of `C`).
* The builtin `hash` is an environment parameter `hash : String → Int`;
  Python's `%` on integers with a positive modulus agrees with `Int.emod`.
* Sources of randomness (`randint`, `random.choice`) are passed in as
  explicit parameters; theorems quantify over the values the random
  source may produce.
* A method body that falls off its end returns Python `None`, modelled as
  `Option.none` in the result type.
-/

/-- A Python runtime value, as far as the module inspects values:
the truthiness test `not config.get('PRIMARY')` can see `None`, booleans,
integers and strings. -/
inductive PyVal
  | none
  | bool (b : Bool)
  | int (n : Int)
  | str (s : String)
deriving DecidableEq, Repr

/-- Python truthiness: `None`, `False`, `0` and `""` are falsy. -/
def pyTruthy : PyVal → Bool
  | PyVal.none => false
  | PyVal.bool b => b
  | PyVal.int n => decide (n ≠ 0)
  | PyVal.str s => decide (s ≠ "")

/-- Python `str(...)` on the values a primary key may take. -/
def pyStr : PyVal → String
  | PyVal.none => "None"
  | PyVal.bool b => if b then "True" else "False"
  | PyVal.int n => toString n
  | PyVal.str s => s

/-- The Python exceptions the module can raise. -/
inductive PyErr
  | typeError
  | stopIteration
  | indexError
  | zeroDivisionError
deriving DecidableEq, Repr

/-- One entry of the `DATABASES` configuration, restricted to the two keys
the module reads: `config.get('SHARD_GROUP')` (a string, or `None` when
the key is absent) and `config.get('PRIMARY')` (any value; absent is
`None`). -/
structure DbConfig where
  shardGroup : Option String
  primary : PyVal
deriving DecidableEq, Repr

/-- The `databases` dictionary: an association list of name → config. -/
abbrev Databases : Type := List (String × DbConfig)

/-- A model instance as the strategies see it: `model_sharded_by.pk` and
the `shard` attribute written by callers of sticky strategies (`none`
models an attribute that was never assigned, i.e. Python `None`). -/
structure ShardedModel where
  pk : PyVal
  shard : Option String
deriving DecidableEq, Repr

/-- The runtime class of `self`, needed because the source calls
`super(RoundRobinBucketingStrategy, self)` from sibling classes. -/
inductive ClsId
  | baseCls
  | shardedBaseCls
  | roundRobinCls
  | randomCls
  | modCls
  | savedModCls
deriving DecidableEq, Repr

/-- The ancestors of each class in the source's hierarchy (including the
class itself). -/
def clsAncestors : ClsId → List ClsId
  | ClsId.baseCls => [ClsId.baseCls]
  | ClsId.shardedBaseCls => [ClsId.shardedBaseCls, ClsId.baseCls]
  | ClsId.roundRobinCls => [ClsId.roundRobinCls, ClsId.shardedBaseCls, ClsId.baseCls]
  | ClsId.randomCls => [ClsId.randomCls, ClsId.shardedBaseCls, ClsId.baseCls]
  | ClsId.modCls => [ClsId.modCls, ClsId.baseCls]
  | ClsId.savedModCls =>
      [ClsId.savedModCls, ClsId.shardedBaseCls, ClsId.modCls, ClsId.baseCls]

/-- `issubclass(c, d)`: used to model the check `super(d, self)` performs
on the runtime class of `self`. -/
def isSubclassOf (c d : ClsId) : Bool := decide (d ∈ clsAncestors c)

/-- The default value of `BaseBucketingStrategy.__init__`'s `shard_group`
parameter: the string `'default'`. -/
def BaseBucketingStrategy.defaultShardGroup : Option String := some "default"

/-- `BaseBucketingStrategy.get_shards`: iterate over the databases in
order and collect every name whose config has `SHARD_GROUP` equal to the
strategy's `shard_group` and a falsy `PRIMARY`. -/
def BaseBucketingStrategy.get_shards (shard_group : Option String) :
    Databases → List String
  | [] => []
  | (name, config) :: rest =>
      if config.shardGroup = shard_group ∧ pyTruthy config.primary = false then
        name :: BaseBucketingStrategy.get_shards shard_group rest
      else
        BaseBucketingStrategy.get_shards shard_group rest

/-- `BaseShardedModelBucketingStrategy.get_shard`: `return
model_sharded_by.shard`.  It never raises and ignores everything but the
model's `shard` attribute. -/
def BaseShardedModelBucketingStrategy.get_shard (m : ShardedModel) :
    Except PyErr (Option String) :=
  Except.ok m.shard

/-- The state a `RoundRobinBucketingStrategy` instance holds after
`__init__`: its `shard_group`, the rotated list fed to `itertools.cycle`,
and the cycle's position. -/
structure RoundRobinState where
  shard_group : Option String
  cycleList : List String
  idx : Nat
deriving DecidableEq, Repr

/-- `RoundRobinBucketingStrategy.__init__`, with `randint(0, max(0,
len(shards) - 1))` modelled by the explicit parameter `r` (theorems
assume `r ≤ max 0 (len - 1)` where they rely on the range): compute the
shard set once, rotate it to `shards[r:] + shards[:r]`, start the cycle. -/
def RoundRobinBucketingStrategy.init (shard_group : Option String)
    (databases : Databases) (r : Nat) : RoundRobinState :=
  let shards := BaseBucketingStrategy.get_shards shard_group databases
  ⟨shard_group, shards.drop r ++ shards.take r, 0⟩

/-- The `super(RoundRobinBucketingStrategy, self).__init__(...)` call at
the top of `RoundRobinBucketingStrategy.__init__`: it type-checks `self`
against `RoundRobinBucketingStrategy` before the body may run. -/
def RoundRobinBucketingStrategy.initChecked (selfCls : ClsId)
    (shard_group : Option String) (databases : Databases) (r : Nat) :
    Except PyErr RoundRobinState :=
  if isSubclassOf selfCls ClsId.roundRobinCls then
    Except.ok (RoundRobinBucketingStrategy.init shard_group databases r)
  else
    Except.error PyErr.typeError

/-- `RoundRobinBucketingStrategy.pick_shard`: `self._shards_cycle.next()`.
An empty cycle raises `StopIteration`; otherwise the call yields the next
element and advances the cycle. -/
def RoundRobinBucketingStrategy.pick_shard (s : RoundRobinState) :
    Except PyErr (String × RoundRobinState) :=
  if s.cycleList = [] then
    Except.error PyErr.stopIteration
  else
    Except.ok (s.cycleList.getD (s.idx % s.cycleList.length) "",
      ⟨s.shard_group, s.cycleList, s.idx + 1⟩)

/-- `RoundRobinBucketingStrategy.get_shard`, resolved through the MRO to
`BaseShardedModelBucketingStrategy.get_shard`. -/
def RoundRobinBucketingStrategy.get_shard (_s : RoundRobinState)
    (m : ShardedModel) : Except PyErr (Option String) :=
  BaseShardedModelBucketingStrategy.get_shard m

/-- The state a `RandomBucketingStrategy` would hold after a successful
`__init__`. -/
structure RandomStrategyState where
  shard_group : Option String
  shards : List String
deriving DecidableEq, Repr

/-- `RandomBucketingStrategy.__init__`.  Its first statement is
`super(RoundRobinBucketingStrategy, self).__init__(shard_group)`, which
raises `TypeError` unless `self` is an instance of
`RoundRobinBucketingStrategy` — which a directly constructed
`RandomBucketingStrategy` never is. -/
def RandomBucketingStrategy.init (selfCls : ClsId)
    (shard_group : Option String) (databases : Databases) :
    Except PyErr RandomStrategyState :=
  if isSubclassOf selfCls ClsId.roundRobinCls then
    Except.ok ⟨shard_group, BaseBucketingStrategy.get_shards shard_group databases⟩
  else
    Except.error PyErr.typeError

/-- `RandomBucketingStrategy.pick_shard`: `random.choice(self.shards)`,
with the random draw modelled by the parameter `r`; `choice` on an empty
sequence raises `IndexError`. -/
def RandomBucketingStrategy.pick_shard (s : RandomStrategyState) (r : Nat) :
    Except PyErr String :=
  if s.shards = [] then
    Except.error PyErr.indexError
  else
    Except.ok (s.shards.getD (r % s.shards.length) "")

/-- `RandomBucketingStrategy.get_shard`, resolved through the MRO to
`BaseShardedModelBucketingStrategy.get_shard`. -/
def RandomBucketingStrategy.get_shard (_s : RandomStrategyState)
    (m : ShardedModel) : Except PyErr (Option String) :=
  BaseShardedModelBucketingStrategy.get_shard m

/-- The state a `ModBucketingStrategy` would hold after a successful
`__init__`. -/
structure ModStrategyState where
  shard_group : Option String
  shards : List String
deriving DecidableEq, Repr

/-- `ModBucketingStrategy.__init__`.  Like `RandomBucketingStrategy`, its
first statement is `super(RoundRobinBucketingStrategy, self).__init__(
shard_group)`, a `TypeError` for any `self` that is not a
`RoundRobinBucketingStrategy` instance. -/
def ModBucketingStrategy.init (selfCls : ClsId)
    (shard_group : Option String) (databases : Databases) :
    Except PyErr ModStrategyState :=
  if isSubclassOf selfCls ClsId.roundRobinCls then
    Except.ok ⟨shard_group, BaseBucketingStrategy.get_shards shard_group databases⟩
  else
    Except.error PyErr.typeError

/-- The subscript expression
`self.shards[hash(str(model_sharded_by.pk)) % len(self.shards)]` that the
bodies of `ModBucketingStrategy.pick_shard` and `get_shard` evaluate.
With an empty shard list, `% 0` raises `ZeroDivisionError`; otherwise the
index is in range because Python `%` with a positive modulus is
non-negative. -/
def ModBucketingStrategy.selection (hash : String → Int)
    (shards : List String) (m : ShardedModel) : Except PyErr String :=
  if shards.length = 0 then
    Except.error PyErr.zeroDivisionError
  else
    Except.ok (shards.getD (hash (pyStr m.pk) % (shards.length : Int)).toNat "")

/-- `ModBucketingStrategy.pick_shard`: the body evaluates the subscript
expression but has no `return` statement, so the method returns `None`
(after propagating any exception of the subscript). -/
def ModBucketingStrategy.pick_shard (hash : String → Int)
    (shards : List String) (m : ShardedModel) : Except PyErr (Option String) :=
  (ModBucketingStrategy.selection hash shards m).map (fun _ => Option.none)

/-- `ModBucketingStrategy.get_shard`: textually the same body as
`pick_shard`, also without a `return`. -/
def ModBucketingStrategy.get_shard (hash : String → Int)
    (shards : List String) (m : ShardedModel) : Except PyErr (Option String) :=
  (ModBucketingStrategy.selection hash shards m).map (fun _ => Option.none)

/-- `SavedModBucketingStrategy.__init__`, resolved through the MRO
(`SavedMod → BaseShardedModel → Mod → Base`) to
`ModBucketingStrategy.__init__`, with `self` of class
`SavedModBucketingStrategy`. -/
def SavedModBucketingStrategy.init (shard_group : Option String)
    (databases : Databases) : Except PyErr ModStrategyState :=
  ModBucketingStrategy.init ClsId.savedModCls shard_group databases

/-- `SavedModBucketingStrategy.pick_shard`, resolved through the MRO to
`ModBucketingStrategy.pick_shard`. -/
def SavedModBucketingStrategy.pick_shard (hash : String → Int)
    (shards : List String) (m : ShardedModel) : Except PyErr (Option String) :=
  ModBucketingStrategy.pick_shard hash shards m

/-- `SavedModBucketingStrategy.get_shard`, resolved through the MRO to
`BaseShardedModelBucketingStrategy.get_shard` (the sticky read-back). -/
def SavedModBucketingStrategy.get_shard (_s : ModStrategyState)
    (m : ShardedModel) : Except PyErr (Option String) :=
  BaseShardedModelBucketingStrategy.get_shard m

/-- The deterministic hash the spec's concrete scenario fixes: the sum of
the character codes of the string. -/
def specHash (s : String) : Int := (s.data.map (fun c => (c.toNat : Int))).sum

/-- The value of the `i`-th `pick_shard` call (0-based) made on a
round-robin strategy in state `s`. -/
def rrNthPick (s : RoundRobinState) (i : Nat) : Except PyErr String :=
  if s.cycleList = [] then
    Except.error PyErr.stopIteration
  else
    Except.ok (s.cycleList.getD ((s.idx + i) % s.cycleList.length) "")

/-- The list of results of `n` consecutive `pick_shard` calls starting
from state `s` (the state is threaded through on success and unchanged on
failure). -/
def rrPickSeq : RoundRobinState → Nat → List (Except PyErr String)
  | _, 0 => []
  | s, n + 1 =>
      match RoundRobinBucketingStrategy.pick_shard s with
      | Except.error e => Except.error e :: rrPickSeq s n
      | Except.ok (v, s2) => Except.ok v :: rrPickSeq s2 n

/-- A sample registry: two non-primary members of group `'default'`. -/
def exampleDbs : Databases :=
  [("s0", ⟨some "default", PyVal.none⟩), ("s1", ⟨some "default", PyVal.none⟩)]

/-- A sample registry with three shards in group `'default'` plus a
primary that must be excluded. -/
def exampleDbs3 : Databases :=
  [("s0", ⟨some "default", PyVal.none⟩),
   ("s1", ⟨some "default", PyVal.none⟩),
   ("s2", ⟨some "default", PyVal.none⟩),
   ("p0", ⟨some "default", PyVal.bool true⟩)]

/-! ## Helper lemmas about the shard-set resolver -/

/-- Membership in `get_shards`: a name is collected iff some entry of the
registry pairs it with a config in the strategy's group whose `PRIMARY`
is falsy. -/
theorem mem_get_shards (g : Option String) (name : String) (dbs : Databases) :
    name ∈ BaseBucketingStrategy.get_shards g dbs ↔
      ∃ c : DbConfig, (name, c) ∈ dbs ∧ c.shardGroup = g ∧
        pyTruthy c.primary = false := by
  induction dbs with
  | nil => simp [BaseBucketingStrategy.get_shards]
  | cons p rest ih =>
      obtain ⟨n, c⟩ := p
      by_cases h : c.shardGroup = g ∧ pyTruthy c.primary = false
      · simp only [BaseBucketingStrategy.get_shards, if_pos h, List.mem_cons, ih,
          Prod.mk.injEq]
        constructor
        · rintro (rfl | ⟨c2, h2, h3, h4⟩)
          · exact ⟨c, Or.inl ⟨rfl, rfl⟩, h.1, h.2⟩
          · exact ⟨c2, Or.inr h2, h3, h4⟩
        · rintro ⟨c2, (⟨rfl, rfl⟩ | h2), h3, h4⟩
          · exact Or.inl rfl
          · exact Or.inr ⟨c2, h2, h3, h4⟩
      · simp only [BaseBucketingStrategy.get_shards, if_neg h, ih, List.mem_cons,
          Prod.mk.injEq]
        constructor
        · rintro ⟨c2, h2, h3, h4⟩
          exact ⟨c2, Or.inr h2, h3, h4⟩
        · rintro ⟨c2, (⟨rfl, rfl⟩ | h2), h3, h4⟩
          · exact absurd ⟨h3, h4⟩ h
          · exact ⟨c2, h2, h3, h4⟩

/-- `get_shards` is empty exactly when no registry entry matches. -/
theorem get_shards_eq_nil_iff (g : Option String) (dbs : Databases) :
    BaseBucketingStrategy.get_shards g dbs = [] ↔
      ∀ p : String × DbConfig, p ∈ dbs →
        ¬(p.2.shardGroup = g ∧ pyTruthy p.2.primary = false) := by
  induction dbs with
  | nil => simp [BaseBucketingStrategy.get_shards]
  | cons p rest ih =>
      obtain ⟨n, c⟩ := p
      by_cases h : c.shardGroup = g ∧ pyTruthy c.primary = false
      · simp only [BaseBucketingStrategy.get_shards, if_pos h]
        constructor
        · intro hfalse
          exact absurd hfalse (List.cons_ne_nil n _)
        · intro hall
          exact absurd h (hall (n, c) (List.mem_cons_self _ _))
      · simp only [BaseBucketingStrategy.get_shards, if_neg h, ih]
        constructor
        · intro hall q hq
          rcases List.mem_cons.mp hq with rfl | hq2
          · exact h
          · exact hall q hq2
        · intro hall q hq
          exact hall q (List.mem_cons_of_mem _ hq)

/-! ## Claims about the resolver -/

/-- C4: `get_shards` returns exactly the names of registry entries whose
routing-group label equals the strategy's group and whose primary flag is
false (falsy), an empty list exactly when nothing matches, and — being a
pure function of its arguments in this embedding — it has no side
effects on the registry or the strategy. -/
theorem c4_get_shards_characterization (g : Option String) (dbs : Databases) :
    (∀ name : String,
      name ∈ BaseBucketingStrategy.get_shards g dbs ↔
        ∃ c : DbConfig, (name, c) ∈ dbs ∧ c.shardGroup = g ∧
          pyTruthy c.primary = false) ∧
    (BaseBucketingStrategy.get_shards g dbs = [] ↔
      ∀ p : String × DbConfig, p ∈ dbs →
        ¬(p.2.shardGroup = g ∧ pyTruthy p.2.primary = false)) :=
  ⟨fun name => mem_get_shards g name dbs, get_shards_eq_nil_iff g dbs⟩

/-- C10: a config lacking a `SHARD_GROUP` entry (`config.get` yields
`None`) is never selected by a strategy whose group is any string — in
particular the base default `'default'` — and is selected only when the
strategy's group is itself `None`; and a config counts as non-primary
whenever its `PRIMARY` value is falsy (`None`, `False`, `0`, `""`), not
only when it is literally `False`. -/
theorem c10_missing_group_and_truthiness (name gl : String) (pv : PyVal)
    (h : pyTruthy pv = false) :
    BaseBucketingStrategy.get_shards (some gl) [(name, ⟨Option.none, pv⟩)] = [] ∧
    BaseBucketingStrategy.get_shards Option.none [(name, ⟨Option.none, pv⟩)] =
      [name] ∧
    BaseBucketingStrategy.defaultShardGroup = some "default" ∧
    pyTruthy PyVal.none = false ∧
    pyTruthy (PyVal.bool false) = false ∧
    pyTruthy (PyVal.int 0) = false ∧
    pyTruthy (PyVal.str "") = false ∧
    pyTruthy (PyVal.bool true) = true ∧
    pyTruthy (PyVal.int 1) = true ∧
    pyTruthy (PyVal.str "x") = true := by
  refine ⟨?_, ?_, rfl, rfl, rfl, by decide, by decide, rfl, by decide, by decide⟩
  · simp [BaseBucketingStrategy.get_shards]
  · simp [BaseBucketingStrategy.get_shards, h]

/-- Witness for C10: instantiated at a concrete registry entry with
`PRIMARY = 0`. -/
theorem c10_witness :
    BaseBucketingStrategy.get_shards (some "g1")
      [("db1", ⟨Option.none, PyVal.int 0⟩)] = [] ∧
    BaseBucketingStrategy.get_shards Option.none
      [("db1", ⟨Option.none, PyVal.int 0⟩)] = ["db1"] ∧
    BaseBucketingStrategy.defaultShardGroup = some "default" ∧
    pyTruthy PyVal.none = false ∧
    pyTruthy (PyVal.bool false) = false ∧
    pyTruthy (PyVal.int 0) = false ∧
    pyTruthy (PyVal.str "") = false ∧
    pyTruthy (PyVal.bool true) = true ∧
    pyTruthy (PyVal.int 1) = true ∧
    pyTruthy (PyVal.str "x") = true :=
  c10_missing_group_and_truthiness "db1" "g1" (PyVal.int 0) (by decide)

/-! ## Claims about the modulo strategies and the constructors -/

/-- C1 (code bug): on shard set `["s0","s1"]` and primary key `"42"` with
the deterministic hash `specHash` (sum of character codes, `specHash "42"
= 102`), the claim expects `pick_shard` and `get_shard` to return the
shard at index `102 % 2 = 0`, i.e. `"s0"`.  The bodies do evaluate the
subscript `self.shards[hash(str(pk)) % len(self.shards)]` — the value of
that expression is `"s0"` — but both methods lack a `return` statement,
so each call returns Python `None`. -/
theorem c1_mod_pick_get_return_none :
    ModBucketingStrategy.pick_shard specHash ["s0", "s1"]
      ⟨PyVal.str "42", Option.none⟩ = Except.ok Option.none ∧
    ModBucketingStrategy.get_shard specHash ["s0", "s1"]
      ⟨PyVal.str "42", Option.none⟩ = Except.ok Option.none ∧
    ModBucketingStrategy.selection specHash ["s0", "s1"]
      ⟨PyVal.str "42", Option.none⟩ = Except.ok "s0" ∧
    specHash "42" = 102 :=
  ⟨rfl, rfl, rfl, rfl⟩

/-- C2 (code bug): `RandomBucketingStrategy.__init__` and
`ModBucketingStrategy.__init__` both begin with
`super(RoundRobinBucketingStrategy, self).__init__(shard_group)`, and
`SavedModBucketingStrategy` inherits the latter; since none of these
classes is a subclass of `RoundRobinBucketingStrategy`, every direct
construction raises `TypeError` — even over a perfectly good registry.
Only `RoundRobinBucketingStrategy` itself constructs successfully (and it
also tolerates an empty registry). -/
theorem c2_sibling_constructors_raise :
    RandomBucketingStrategy.init ClsId.randomCls (some "default") exampleDbs =
      Except.error PyErr.typeError ∧
    ModBucketingStrategy.init ClsId.modCls (some "default") exampleDbs =
      Except.error PyErr.typeError ∧
    SavedModBucketingStrategy.init (some "default") exampleDbs =
      Except.error PyErr.typeError ∧
    RoundRobinBucketingStrategy.initChecked ClsId.roundRobinCls
      (some "default") exampleDbs 0 =
      Except.ok (RoundRobinBucketingStrategy.init (some "default") exampleDbs 0) ∧
    RoundRobinBucketingStrategy.initChecked ClsId.roundRobinCls
      (some "default") [] 0 =
      Except.ok (RoundRobinBucketingStrategy.init (some "default") [] 0) :=
  ⟨rfl, rfl, rfl, rfl, rfl⟩

/-- C3 counterexample: a round-robin strategy whose shard set is empty
(`cycleList = []`) still answers `get_shard` successfully — it just reads
the model's `shard` attribute — refuting the claim that every `get_shard`
call on an empty shard set fails. -/
theorem c3_counterexample :
    RoundRobinBucketingStrategy.get_shard ⟨some "default", [], 0⟩
      ⟨PyVal.str "1", some "a"⟩ = Except.ok (some "a") :=
  rfl

/-- C3 amended: with an empty shard set, each strategy's `pick_shard`
does fail, but with a strategy-specific builtin exception — there is no
`NoShardsAvailable` condition in the module: `StopIteration` for
round-robin, `IndexError` for random, `ZeroDivisionError` for the modulo
strategies (whose `get_shard` fails the same way) — while the sticky
strategies' `get_shard` does not fail at all: it returns the stored
attribute. -/
theorem c3_empty_set_failures (g : Option String) (idx r : Nat)
    (hash : String → Int) (m : ShardedModel) :
    RoundRobinBucketingStrategy.pick_shard ⟨g, [], idx⟩ =
      Except.error PyErr.stopIteration ∧
    RandomBucketingStrategy.pick_shard ⟨g, []⟩ r =
      Except.error PyErr.indexError ∧
    ModBucketingStrategy.pick_shard hash [] m =
      Except.error PyErr.zeroDivisionError ∧
    ModBucketingStrategy.get_shard hash [] m =
      Except.error PyErr.zeroDivisionError ∧
    SavedModBucketingStrategy.pick_shard hash [] m =
      Except.error PyErr.zeroDivisionError ∧
    RoundRobinBucketingStrategy.get_shard ⟨g, [], idx⟩ m = Except.ok m.shard ∧
    RandomBucketingStrategy.get_shard ⟨g, []⟩ m = Except.ok m.shard ∧
    SavedModBucketingStrategy.get_shard ⟨g, []⟩ m = Except.ok m.shard :=
  ⟨rfl, rfl, rfl, rfl, rfl, rfl, rfl, rfl⟩

/-- C6: for every sticky strategy (round-robin, random, saved-modulo) and
every model whose `shard` attribute is set, `get_shard` returns exactly
the stored value; it is independent of the strategy state (so it reads no
part of the shard set and, being pure in this embedding, mutates
nothing), and all three strategies share the behaviour of
`BaseShardedModelBucketingStrategy.get_shard`. -/
theorem c6_sticky_get_shard_reads_attribute (v : String) (m : ShardedModel)
    (h : m.shard = some v) :
    (∀ s : RoundRobinState,
      RoundRobinBucketingStrategy.get_shard s m = Except.ok (some v)) ∧
    (∀ s : RandomStrategyState,
      RandomBucketingStrategy.get_shard s m = Except.ok (some v)) ∧
    (∀ s : ModStrategyState,
      SavedModBucketingStrategy.get_shard s m = Except.ok (some v)) ∧
    (∀ (s : RoundRobinState) (s2 : RandomStrategyState) (s3 : ModStrategyState),
      RoundRobinBucketingStrategy.get_shard s m =
        BaseShardedModelBucketingStrategy.get_shard m ∧
      RandomBucketingStrategy.get_shard s2 m =
        BaseShardedModelBucketingStrategy.get_shard m ∧
      SavedModBucketingStrategy.get_shard s3 m =
        BaseShardedModelBucketingStrategy.get_shard m) := by
  refine ⟨?_, ?_, ?_, ?_⟩
  · intro s
    simp [RoundRobinBucketingStrategy.get_shard,
      BaseShardedModelBucketingStrategy.get_shard, h]
  · intro s
    simp [RandomBucketingStrategy.get_shard,
      BaseShardedModelBucketingStrategy.get_shard, h]
  · intro s
    simp [SavedModBucketingStrategy.get_shard,
      BaseShardedModelBucketingStrategy.get_shard, h]
  · intro s s2 s3
    exact ⟨rfl, rfl, rfl⟩

/-- Witness for C6: a model already assigned to `"s1"` is read back
unchanged by all three sticky strategies. -/
theorem c6_witness :
    RoundRobinBucketingStrategy.get_shard ⟨some "default", ["s0"], 0⟩
      ⟨PyVal.str "42", some "s1"⟩ = Except.ok (some "s1") ∧
    RandomBucketingStrategy.get_shard ⟨some "default", ["s0"]⟩
      ⟨PyVal.str "42", some "s1"⟩ = Except.ok (some "s1") ∧
    SavedModBucketingStrategy.get_shard ⟨some "default", ["s0"]⟩
      ⟨PyVal.str "42", some "s1"⟩ = Except.ok (some "s1") :=
  ⟨(c6_sticky_get_shard_reads_attribute "s1" ⟨PyVal.str "42", some "s1"⟩ rfl).1
      ⟨some "default", ["s0"], 0⟩,
    (c6_sticky_get_shard_reads_attribute "s1" ⟨PyVal.str "42", some "s1"⟩ rfl).2.1
      ⟨some "default", ["s0"]⟩,
    (c6_sticky_get_shard_reads_attribute "s1" ⟨PyVal.str "42", some "s1"⟩ rfl).2.2.1
      ⟨some "default", ["s0"]⟩⟩

/-- C7 counterexample: a sticky strategy's `get_shard` on a model whose
`shard` attribute was never assigned does not fail — it silently returns
the unset value (Python `None`), refuting the claimed `UnassignedShard`
failure. -/
theorem c7_counterexample :
    RoundRobinBucketingStrategy.get_shard ⟨some "default", ["s0"], 0⟩
      ⟨PyVal.str "42", Option.none⟩ = Except.ok Option.none :=
  rfl

/-- C7 amended: for every sticky strategy and every strategy state,
`get_shard` on an entity with no assigned shard returns the unset value
(`None`) without raising; no `UnassignedShard` condition exists in the
module. -/
theorem c7_unassigned_returns_none (pk : PyVal) (s : RoundRobinState)
    (s2 : RandomStrategyState) (s3 : ModStrategyState) :
    RoundRobinBucketingStrategy.get_shard s ⟨pk, Option.none⟩ =
      Except.ok Option.none ∧
    RandomBucketingStrategy.get_shard s2 ⟨pk, Option.none⟩ =
      Except.ok Option.none ∧
    SavedModBucketingStrategy.get_shard s3 ⟨pk, Option.none⟩ =
      Except.ok Option.none :=
  ⟨rfl, rfl, rfl⟩

/-- C8 (code bug): two entities whose primary keys have the same string
form (`str "7"` and `int 7`) are routed identically by the saved-modulo
`pick_shard` — determinism holds — but the method returns `None` for
both, because the subscript it evaluates (whose value here is `"s1"`,
since `specHash "7" = 55` and `55 % 3 = 1`) is discarded by the missing
`return`; the caller would persist `None`, not the selected shard. -/
theorem c8_savedmod_pick_discards_selection :
    SavedModBucketingStrategy.pick_shard specHash ["s0", "s1", "s2"]
      ⟨PyVal.str "7", Option.none⟩ = Except.ok Option.none ∧
    SavedModBucketingStrategy.pick_shard specHash ["s0", "s1", "s2"]
      ⟨PyVal.int 7, Option.none⟩ = Except.ok Option.none ∧
    SavedModBucketingStrategy.pick_shard specHash ["s0", "s1", "s2"]
        ⟨PyVal.str "7", Option.none⟩ =
      SavedModBucketingStrategy.pick_shard specHash ["s0", "s1", "s2"]
        ⟨PyVal.int 7, Option.none⟩ ∧
    ModBucketingStrategy.selection specHash ["s0", "s1", "s2"]
      ⟨PyVal.str "7", Option.none⟩ = Except.ok "s1" :=
  ⟨rfl, rfl, rfl, rfl⟩

/-! ## Helper lemmas about the round-robin cycle -/

/-- Unfolding `rrPickSeq` one step on an empty cycle. -/
theorem rrPickSeq_nil_succ (g : Option String) (idx n : Nat) :
    rrPickSeq ⟨g, [], idx⟩ (n + 1) =
      Except.error PyErr.stopIteration :: rrPickSeq ⟨g, [], idx⟩ n :=
  rfl

/-- Unfolding `rrPickSeq` one step on a non-empty cycle. -/
theorem rrPickSeq_cons_succ (g : Option String) (a : String) (t : List String)
    (idx n : Nat) :
    rrPickSeq ⟨g, a :: t, idx⟩ (n + 1) =
      Except.ok ((a :: t).getD (idx % (a :: t).length) "") ::
        rrPickSeq ⟨g, a :: t, idx + 1⟩ n :=
  rfl

/-- `rrNthPick` on a non-empty cycle. -/
theorem rrNthPick_cons (g : Option String) (a : String) (t : List String)
    (idx i : Nat) :
    rrNthPick ⟨g, a :: t, idx⟩ i =
      Except.ok ((a :: t).getD ((idx + i) % (a :: t).length) "") :=
  rfl

/-- Advancing the cursor by one shifts `rrNthPick` by one call. -/
theorem rrNthPick_advance (g : Option String) (l : List String) (idx i : Nat) :
    rrNthPick ⟨g, l, idx + 1⟩ i = rrNthPick ⟨g, l, idx⟩ (i + 1) := by
  have h : idx + 1 + i = idx + (i + 1) := by omega
  simp only [rrNthPick, h]

/-- The sequence of `n` consecutive `pick_shard` results is pointwise
given by `rrNthPick`. -/
theorem rrPickSeq_eq_map_range (n : Nat) :
    ∀ s : RoundRobinState, rrPickSeq s n = (List.range n).map (rrNthPick s) := by
  induction n with
  | zero => intro s; rfl
  | succ n ih =>
      rintro ⟨g, l, idx⟩
      rw [List.range_succ_eq_map, List.map_cons, List.map_map]
      cases l with
      | nil =>
          rw [rrPickSeq_nil_succ, ih]
          rfl
      | cons a t =>
          rw [rrPickSeq_cons_succ, ih]
          congr 1
          apply List.map_congr_left
          intro i _
          simp only [Function.comp_apply]
          exact rrNthPick_advance g (a :: t) idx i

/-- Reading a list back element by element with `getD` over its range of
indices reproduces the list. -/
theorem map_range_getD (l : List String) (d : String) :
    (List.range l.length).map (fun i => l.getD i d) = l := by
  induction l with
  | nil => rfl
  | cons a t ih =>
      rw [List.length_cons, List.range_succ_eq_map, List.map_cons, List.map_map]
      have h : ((fun i => (a :: t).getD i d) ∘ Nat.succ) = fun i => t.getD i d := by
        funext i
        rfl
      rw [h, ih]
      rfl

/-- `getD` through a rotation: element `i` of `l.rotate j` is element
`(i + j) % l.length` of `l`. -/
theorem getD_rotate (l : List String) (hl : l ≠ []) (j i : Nat)
    (hi : i < l.length) :
    (l.rotate j).getD i "" = l.getD ((i + j) % l.length) "" := by
  have h1 : i < (l.rotate j).length := by
    rw [List.length_rotate]
    exact hi
  have h2 : (i + j) % l.length < l.length :=
    Nat.mod_lt _ (List.length_pos.mpr hl)
  rw [List.getD_eq_getElem _ _ h1, List.getD_eq_getElem _ _ h2]
  exact List.getElem_rotate l j i h1

/-- Any window of `l.length` consecutive `pick_shard` calls on a fresh
cycle over `l`, starting with the `j`-th call, yields exactly the
rotation of `l` by `j`. -/
theorem rr_window_eq_rotate (g : Option String) (l : List String)
    (hl : l ≠ []) (j : Nat) :
    (List.range l.length).map (fun i => rrNthPick ⟨g, l, 0⟩ (j + i)) =
      (l.rotate j).map Except.ok := by
  obtain ⟨a, t, rfl⟩ : ∃ a t, l = a :: t := by
    cases l with
    | nil => exact absurd rfl hl
    | cons a t => exact ⟨a, t, rfl⟩
  have hstep : ∀ i ∈ List.range (a :: t).length,
      rrNthPick ⟨g, a :: t, 0⟩ (j + i) =
        Except.ok (((a :: t).rotate j).getD i "") := by
    intro i hi
    have hi2 : i < (a :: t).length := List.mem_range.mp hi
    rw [rrNthPick_cons, getD_rotate (a :: t) hl j i hi2]
    have h3 : 0 + (j + i) = i + j := by omega
    rw [h3]
  rw [List.map_congr_left hstep]
  have h4 : (List.range (a :: t).length).map
        (fun i => Except.ok (((a :: t).rotate j).getD i "")) =
      (((a :: t).rotate j).map (fun x => (Except.ok x : Except PyErr String))) := by
    have h5 : (a :: t).length = ((a :: t).rotate j).length :=
      (List.length_rotate _ _).symm
    rw [h5]
    conv_rhs => rw [← map_range_getD ((a :: t).rotate j) ""]
    rw [List.map_map]
    rfl
  rw [h4]

/-- The rotated snapshot built by `__init__` is a permutation of the
resolved shard list. -/
theorem drop_append_take_perm (l : List String) (k : Nat) :
    (l.drop k ++ l.take k).Perm l := by
  have h2 : (l.drop k ++ l.take k).Perm (l.take k ++ l.drop k) :=
    List.perm_append_comm
  rw [List.take_append_drop] at h2
  exact h2

/-! ## Claims about the round-robin strategy -/

/-- C5: over a non-empty resolved shard set `S` with `N = |S|` and any
construction-time offset `k` in the range `randint` can draw from, the
first `N` `pick_shard` calls return exactly `S` rotated by `k`; that
rotation is a permutation of `S` (every member exactly once); every
window of `N` consecutive calls is a permutation of `S`; the call
sequence is periodic with period `N`; and on shard set
`["s0","s1","s2"]` with offset `0`, four consecutive calls return
`s0, s1, s2, s0`. -/
theorem c5_round_robin_cycle (g : Option String) (dbs : Databases) (k : Nat)
    (_hk : k ≤ max 0 ((BaseBucketingStrategy.get_shards g dbs).length - 1))
    (hne : BaseBucketingStrategy.get_shards g dbs ≠ []) :
    rrPickSeq (RoundRobinBucketingStrategy.init g dbs k)
        (BaseBucketingStrategy.get_shards g dbs).length =
      ((BaseBucketingStrategy.get_shards g dbs).drop k ++
        (BaseBucketingStrategy.get_shards g dbs).take k).map Except.ok ∧
    ((BaseBucketingStrategy.get_shards g dbs).drop k ++
        (BaseBucketingStrategy.get_shards g dbs).take k).Perm
      (BaseBucketingStrategy.get_shards g dbs) ∧
    (∀ j : Nat,
      ((List.range (BaseBucketingStrategy.get_shards g dbs).length).map
          (fun i => rrNthPick (RoundRobinBucketingStrategy.init g dbs k) (j + i))).Perm
        ((BaseBucketingStrategy.get_shards g dbs).map Except.ok)) ∧
    (∀ s : RoundRobinState, s.cycleList ≠ [] → ∀ i : Nat,
      rrNthPick s (i + s.cycleList.length) = rrNthPick s i) ∧
    rrPickSeq (RoundRobinBucketingStrategy.init (some "default") exampleDbs3 0) 4 =
      [Except.ok "s0", Except.ok "s1", Except.ok "s2", Except.ok "s0"] := by
  set shards := BaseBucketingStrategy.get_shards g dbs with hshards
  have hlen : (shards.drop k ++ shards.take k).length = shards.length :=
    (drop_append_take_perm shards k).length_eq
  have hne2 : shards.drop k ++ shards.take k ≠ [] := by
    intro hnil
    apply hne
    have := hlen.symm.trans (congrArg List.length hnil)
    exact List.length_eq_zero.mp this
  have hinit : RoundRobinBucketingStrategy.init g dbs k =
      ⟨g, shards.drop k ++ shards.take k, 0⟩ := rfl
  refine ⟨?_, drop_append_take_perm shards k, ?_, ?_, ?_⟩
  · rw [hinit, rrPickSeq_eq_map_range]
    have h0 : (List.range shards.length).map
          (rrNthPick ⟨g, shards.drop k ++ shards.take k, 0⟩) =
        (List.range (shards.drop k ++ shards.take k).length).map
          (fun i => rrNthPick ⟨g, shards.drop k ++ shards.take k, 0⟩ (0 + i)) := by
      rw [hlen]
      apply List.map_congr_left
      intro i _
      rw [Nat.zero_add]
    rw [h0, rr_window_eq_rotate g _ hne2 0, List.rotate_zero]
  · intro j
    have hwin := rr_window_eq_rotate g (shards.drop k ++ shards.take k) hne2 j
    rw [hinit]
    have h6 : (List.range shards.length).map
          (fun i => rrNthPick ⟨g, shards.drop k ++ shards.take k, 0⟩ (j + i)) =
        ((shards.drop k ++ shards.take k).rotate j).map Except.ok := by
      rw [← hwin, hlen]
    rw [h6]
    exact (((List.rotate_perm _ j).trans
      (drop_append_take_perm shards k)).map Except.ok)
  · rintro ⟨g2, l, idx⟩ hl i
    cases l with
    | nil => exact absurd rfl hl
    | cons a t =>
        rw [rrNthPick_cons, rrNthPick_cons]
        have h7 : idx + (i + (a :: t).length) = (idx + i) + (a :: t).length := by
          omega
        rw [h7, Nat.add_mod_right]
  · rfl

/-- Witness for C5: group `'default'` over the three-shard registry,
offset `0`. -/
theorem c5_witness :
    rrPickSeq (RoundRobinBucketingStrategy.init (some "default") exampleDbs3 0) 3 =
      [Except.ok "s0", Except.ok "s1", Except.ok "s2"] :=
  (c5_round_robin_cycle (some "default") exampleDbs3 0 (by decide) (by decide)).1

/-- C9: round-robin construction rotates the resolved shard list by the
chosen offset `k` (any value `randint(0, max(0, len - 1))` can draw); the
rotated snapshot `shards[k:] + shards[:k]` is a permutation of the
resolved shard set; with exactly one shard the offset is necessarily `0`;
and construction never fails, including over an empty registry, where the
snapshot is simply empty. -/
theorem c9_round_robin_init (g : Option String) (dbs : Databases) (k : Nat)
    (hk : k ≤ max 0 ((BaseBucketingStrategy.get_shards g dbs).length - 1)) :
    (RoundRobinBucketingStrategy.init g dbs k).cycleList =
      (BaseBucketingStrategy.get_shards g dbs).drop k ++
        (BaseBucketingStrategy.get_shards g dbs).take k ∧
    (RoundRobinBucketingStrategy.init g dbs k).cycleList.Perm
      (BaseBucketingStrategy.get_shards g dbs) ∧
    ((BaseBucketingStrategy.get_shards g dbs).length = 1 → k = 0) ∧
    RoundRobinBucketingStrategy.initChecked ClsId.roundRobinCls g dbs k =
      Except.ok (RoundRobinBucketingStrategy.init g dbs k) ∧
    (RoundRobinBucketingStrategy.init g [] k).cycleList = [] := by
  refine ⟨rfl, drop_append_take_perm _ k, ?_, rfl, ?_⟩
  · intro h1
    rw [h1] at hk
    omega
  · show (BaseBucketingStrategy.get_shards g []).drop k ++
      (BaseBucketingStrategy.get_shards g []).take k = []
    simp [BaseBucketingStrategy.get_shards]

/-- Witness for C9: two shards, offset `1` — the maximal value `randint`
may draw. -/
theorem c9_witness :
    (RoundRobinBucketingStrategy.init (some "default") exampleDbs 1).cycleList =
      ["s1", "s0"] ∧
    (RoundRobinBucketingStrategy.init (some "default") exampleDbs 1).cycleList.Perm
      (BaseBucketingStrategy.get_shards (some "default") exampleDbs) := by
  have h := c9_round_robin_init (some "default") exampleDbs 1 (by decide)
  refine ⟨?_, h.2.1⟩
  rw [h.1]
  rfl
